import Mathlib

/-!
Verification of the agent-handoff orchestration pattern of this repository:
the shared context store and its tool helpers (personal-assitant/tools.py),
the dispatch loops of 02-agent-mcp-calendar.py and personal-assitant/init.py,
the handoff-edge configuration, the fan-out coordinator and its merge step,
and the agent registry contract of the design document.
-/

/-- Values storable in the process-wide context dictionary: the initial
entries hold an int, a list and a bool, and the tools store strings (no code
of the repository ever puts a non-string element into a stored list). -/
inductive Value where
  | int : Int → Value
  | str : String → Value
  | bool : Bool → Value
  | list : List String → Value
deriving DecidableEq, Repr

/-- Association-list lookup with Python-dict semantics (first matching key). -/
def getA {α : Type} : List (String × α) → String → Option α
  | [], _ => none
  | (k2, v) :: rest, k => if k2 = k then some v else getA rest k

/-- Association-list update with Python-dict semantics: replace in place if the
key is present (insertion order preserved), append otherwise. -/
def setA {α : Type} : List (String × α) → String → α → List (String × α)
  | [], k, v => [(k, v)]
  | (k2, v2) :: rest, k, v =>
      if k2 = k then (k, v) :: rest else (k2, v2) :: setA rest k v

theorem getA_setA_self {α : Type} (l : List (String × α)) (k : String) (v : α) :
    getA (setA l k v) k = some v := by
  induction l with
  | nil => simp [getA, setA]
  | cons hd tl ih =>
      obtain ⟨k2, v2⟩ := hd
      by_cases h : k2 = k
      · simp [getA, setA, h]
      · simp [getA, setA, h, ih]

theorem getA_setA_ne {α : Type} (l : List (String × α)) (k k2 : String) (v : α)
    (h : k ≠ k2) : getA (setA l k v) k2 = getA l k2 := by
  induction l with
  | nil => simp [getA, setA, h]
  | cons hd tl ih =>
      obtain ⟨k3, v3⟩ := hd
      by_cases h2 : k3 = k
      · subst h2
        simp [getA, setA, h]
      · simp [getA, setA, h2, ih]

/-- The process-wide `context_storage` dictionary of tools.py. -/
abbrev Store := List (String × Value)

/-- Module-load initialisation of `context_storage` in tools.py (lines 24-29). -/
def context_storage_init : Store :=
  [("questions_asked", Value.int 0),
   ("max_questions", Value.int 3),
   ("conflicts_detected", Value.list []),
   ("plan_approved", Value.bool false)]

/-- Tool `save_event_context` (tools.py lines 47-51): stores the string value
under the key and returns the confirmation message. -/
def save_event_context (s : Store) (key value : String) : Store × String :=
  (setA s key (Value.str value), "Saved: " ++ key)

/-- Tool `get_event_context` (tools.py lines 54-57): `context_storage.get(key)`. -/
def get_event_context (s : Store) (key : String) : Option Value :=
  getA s key

/-- Direct-code helper `get_context_value` (tools.py lines 70-81): reads the
same `context_storage` dictionary. -/
def get_context_value (s : Store) (key : String) : Option Value :=
  getA s key

/-- Direct-code helper `set_context_value` (tools.py lines 84-93): writes the
same `context_storage` dictionary. -/
def set_context_value (s : Store) (key value : String) : Store :=
  setA s key (Value.str value)

/-- Tool `increment_questions` (tools.py lines 60-64):
`context_storage["questions_asked"] = context_storage.get("questions_asked", 0) + 1`
and return the new value. An absent key defaults to 0; a bool value is an int
in Python; a non-numeric stored value would raise TypeError (`none` here). -/
def increment_questions (s : Store) : Option (Store × Int) :=
  match getA s "questions_asked" with
  | some (Value.int n) =>
      some (setA s "questions_asked" (Value.int (n + 1)), n + 1)
  | some (Value.bool b) =>
      let n : Int := if b then 1 else 0
      some (setA s "questions_asked" (Value.int (n + 1)), n + 1)
  | none => some (setA s "questions_asked" (Value.int 1), 1)
  | some _ => none

/-- The store and returned value after `n + 1` successive calls of
`increment_questions` starting from store `s` (`callN 0 s` is the first call). -/
def callN : Nat → Store → Option (Store × Int)
  | 0, s => increment_questions s
  | n + 1, s =>
      match increment_questions s with
      | some (s2, _) => callN n s2
      | none => none

/-- Helper `clear_context` (tools.py lines 107-120): `context_storage.clear()`
followed by an update with the four literal entries, with max_questions 10. -/
def clear_context (_s : Store) : Store :=
  [("questions_asked", Value.int 0),
   ("max_questions", Value.int 10),
   ("conflicts_detected", Value.list []),
   ("plan_approved", Value.bool false)]

/-- Read of a stored count as a Python int: ints directly, bools as 0 or 1,
anything else raises in the arithmetic that follows (`none` here). -/
def valueAsInt : Value → Option Int
  | Value.int n => some n
  | Value.bool b => some (if b then 1 else 0)
  | _ => none

/-- Helper `get_questions_remaining` (tools.py lines 123-132):
`max(0, context_storage.get("max_questions", 10) - context_storage.get("questions_asked", 0))`. -/
def get_questions_remaining (s : Store) : Option Int :=
  match valueAsInt ((getA s "questions_asked").getD (Value.int 0)),
        valueAsInt ((getA s "max_questions").getD (Value.int 10)) with
  | some asked, some maxq => some (max 0 (maxq - asked))
  | _, _ => none

/-- C1: context store round-trip and last-write-wins, through the tool
interface (save_event_context / get_event_context), through the direct-code
helpers (set_context_value / get_context_value), and across the two
interfaces, since all four operate on the one `context_storage` mapping. -/
theorem context_store_roundtrip (s : Store) (k v v2 : String) :
    get_event_context (save_event_context s k v).1 k = some (Value.str v) ∧
    get_event_context (save_event_context (save_event_context s k v).1 k v2).1 k
      = some (Value.str v2) ∧
    get_context_value (set_context_value s k v) k = some (Value.str v) ∧
    get_context_value (set_context_value (set_context_value s k v) k v2) k
      = some (Value.str v2) ∧
    get_context_value (save_event_context s k v).1 k = some (Value.str v) ∧
    get_event_context (set_context_value s k v) k = some (Value.str v) ∧
    get_event_context (set_context_value (save_event_context s k v).1 k v2) k
      = some (Value.str v2) ∧
    (save_event_context s k v).2 = "Saved: " ++ k := by
  refine ⟨?_, ?_, ?_, ?_, ?_, ?_, ?_, rfl⟩ <;>
    simp [get_event_context, get_context_value, save_event_context,
      set_context_value, getA_setA_self]

/-- Invariant used for C9: from a counter value m, the (n+1)-th call of
increment_questions returns m + n + 1 and leaves the counter at m + n + 1. -/
theorem callN_invariant (n : Nat) (s : Store) (m : Int)
    (h : getA s "questions_asked" = some (Value.int m)) :
    ∃ s2, callN n s = some (s2, m + n + 1) ∧
      getA s2 "questions_asked" = some (Value.int (m + n + 1)) := by
  induction n generalizing s m with
  | zero =>
      refine ⟨setA s "questions_asked" (Value.int (m + 1)), ?_, ?_⟩
      · simp [callN, increment_questions, h]
      · simp [getA_setA_self]
  | succ n ih =>
      have hstep : increment_questions s
          = some (setA s "questions_asked" (Value.int (m + 1)), m + 1) := by
        simp [increment_questions, h]
      have hget : getA (setA s "questions_asked" (Value.int (m + 1)))
          "questions_asked" = some (Value.int (m + 1)) := getA_setA_self _ _ _
      obtain ⟨s2, h1, h2⟩ := ih _ _ hget
      refine ⟨s2, ?_, ?_⟩
      · simp only [callN, hstep, h1]
        congr 2
        omega
      · have : m + 1 + n + 1 = m + (n + 1) + 1 := by omega
        rw [this] at h2
        exact_mod_cast h2

/-- C9: every call of increment_questions increases the stored
questions_asked counter by exactly 1 and returns the updated total; starting
from a store with counter 0, the n-th call returns n; and no key other than
"questions_asked" is modified by the call. -/
theorem increment_questions_spec :
    (∀ (s : Store) (n : Int), getA s "questions_asked" = some (Value.int n) →
      ∃ s2, increment_questions s = some (s2, n + 1) ∧
        getA s2 "questions_asked" = some (Value.int (n + 1)) ∧
        ∀ k, k ≠ "questions_asked" → getA s2 k = getA s k) ∧
    (∀ (n : Nat) (s : Store), getA s "questions_asked" = some (Value.int 0) →
      ∃ s2, callN n s = some (s2, (n : Int) + 1)) := by
  constructor
  · intro s n h
    refine ⟨setA s "questions_asked" (Value.int (n + 1)), ?_, getA_setA_self _ _ _, ?_⟩
    · simp [increment_questions, h]
    · intro k hk
      exact getA_setA_ne _ _ _ _ (fun e => hk e.symm)
  · intro n s h
    obtain ⟨s2, h1, _⟩ := callN_invariant n s 0 h
    refine ⟨s2, ?_⟩
    rw [h1]
    congr 2
    omega

/-- Witness for C9 at the module-load store: the first call returns 1 and the
fifth call returns 5. -/
theorem increment_questions_spec_witness :
    (∃ s2, increment_questions context_storage_init = some (s2, (0 : Int) + 1) ∧
      getA s2 "questions_asked" = some (Value.int ((0 : Int) + 1)) ∧
      ∀ k, k ≠ "questions_asked" → getA s2 k = getA context_storage_init k) ∧
    (∃ s2, callN 4 context_storage_init = some (s2, ((4 : Nat) : Int) + 1)) :=
  ⟨increment_questions_spec.1 context_storage_init 0 (by decide),
   increment_questions_spec.2 4 context_storage_init (by decide)⟩

/-- C10: clear_context leaves exactly the four configuration keys, with
max_questions reset to 10 rather than the module-load value 3, so clearing
does not restore the startup configuration, and get_questions_remaining
returns 10 right after a clear. -/
theorem clear_context_spec :
    (∀ s : Store,
      getA (clear_context s) "questions_asked" = some (Value.int 0) ∧
      getA (clear_context s) "max_questions" = some (Value.int 10) ∧
      getA (clear_context s) "conflicts_detected" = some (Value.list []) ∧
      getA (clear_context s) "plan_approved" = some (Value.bool false)) ∧
    (∀ (s : Store) (k : String), k ≠ "questions_asked" → k ≠ "max_questions" →
      k ≠ "conflicts_detected" → k ≠ "plan_approved" →
      getA (clear_context s) k = none) ∧
    getA context_storage_init "max_questions" = some (Value.int 3) ∧
    getA (clear_context context_storage_init) "max_questions"
      ≠ getA context_storage_init "max_questions" ∧
    (∀ s : Store, get_questions_remaining (clear_context s) = some 10) := by
  refine ⟨fun s => ⟨rfl, rfl, rfl, rfl⟩, ?_, by decide, by decide, fun s => rfl⟩
  intro s k h1 h2 h3 h4
  simp [clear_context, getA, Ne.symm h1, Ne.symm h2, Ne.symm h3, Ne.symm h4]

/-- Witness for C10: the key "final_plan" (written during a planning run) is
gone after a clear. -/
theorem clear_context_spec_witness :
    getA (clear_context (setA context_storage_init "final_plan"
      (Value.str "plan"))) "final_plan" = none :=
  clear_context_spec.2.1 (setA context_storage_init "final_plan"
    (Value.str "plan")) "final_plan" (by decide) (by decide) (by decide) (by decide)

/-- Items of a dispatch result, mirroring MessageOutputItem, HandoffOutputItem,
ToolCallItem and ToolCallOutputItem of the agents framework as the scripts
consume them. -/
inductive Item where
  | messageOutput (agent : String) (text : String)
  | handoffOutput (source : String) (target : String)
  | toolCall (agent : String) (toolName : String) (argsText : String)
  | toolCallOutput (agent : String) (toolName : String) (resultText : String)
deriving DecidableEq, Repr

/-- Result of one Runner.run invocation as the scripts consume it:
result.new_items and result.last_agent (by name). -/
structure DispatchResult where
  newItems : List Item
  lastAgent : String
deriving DecidableEq, Repr

def isMessageOutput : Item → Bool
  | Item.messageOutput _ _ => true
  | _ => false

/-- The whitespace characters stripped by Python str.strip(). -/
def isPySpace (c : Char) : Bool :=
  c = ' ' || c = '\t' || c = '\n' || c = '\r' || c = '\x0b' || c = '\x0c'

/-- Python str.strip(): drop leading and trailing whitespace. -/
def pyStrip (s : String) : String :=
  String.mk (((s.data.dropWhile isPySpace).reverse.dropWhile isPySpace).reverse)

/-- Python str.lower() on the ASCII range, enough for the exit tokens. -/
def pyLower (s : String) : String :=
  String.mk (s.data.map Char.toLower)

/-- The exit tokens of both dispatch loops. -/
def exitTokens : List String := ["exit", "quit", "bye"]

/-- The exit test of both loops (02-agent-mcp-calendar.py line 287,
init.py lines 326 and 529): the raw line is stripped on read, and the loop
exits when it is empty or its lowercasing is an exit token. -/
def exitRequested (raw : String) : Bool :=
  (pyStrip raw).isEmpty || exitTokens.contains (pyLower (pyStrip raw))

/-- Observable outcome of one iteration of a dispatch loop: the value of the
current_agent variable afterwards, whether Runner.run was invoked, the
exception surfaced to the caller if the invocation raised, and whether the
loop terminated on this iteration. -/
structure StepOut where
  currentAgent : String
  ranAgent : Bool
  error : Option String
  halt : Bool
deriving DecidableEq, Repr

/-- One iteration of the while-loop of 02-agent-mcp-calendar.py
(lines 284-326): read and strip input, exit check before any invocation,
run the current agent (a raised exception propagates before current_agent is
reassigned), then current_agent := result.last_agent and break when it is
CalendarAgent and the result holds at least one MessageOutputItem. -/
def loopStep02 (run : String → String → Except String DispatchResult)
    (cur : String) (raw : String) : StepOut :=
  let input := pyStrip raw
  if exitRequested raw then ⟨cur, false, none, true⟩
  else
    match run cur input with
    | Except.error e => ⟨cur, true, some e, true⟩
    | Except.ok result =>
        ⟨result.lastAgent, true, none,
          (result.lastAgent == "CalendarAgent")
            && result.newItems.any isMessageOutput⟩

/-- One iteration of the tail of the while-loop of personal-assitant/init.py
(lines 526-548): read and strip input, exit check before any invocation, run
the current agent, then current_agent := result.last_agent; the terminal
check happens at the top of the next iteration, not here. -/
def loopStepInit (run : String → String → Except String DispatchResult)
    (cur : String) (raw : String) : StepOut :=
  let input := pyStrip raw
  if exitRequested raw then ⟨cur, false, none, true⟩
  else
    match run cur input with
    | Except.error e => ⟨cur, true, some e, true⟩
    | Except.ok result => ⟨result.lastAgent, true, none, false⟩

/-- The CalendarAgent phase at the top of the while-loop of
personal-assitant/init.py (lines 508-524): when current_agent is
CalendarAgent the loop runs it once more on "Execute the approved plan",
prints its messages, and breaks unconditionally; returns true when the loop
breaks here. -/
def initCalendarHalts (run : String → String → Except String DispatchResult)
    (cur : String) : Bool :=
  if cur = "CalendarAgent" then
    match run cur "Execute the approved plan" with
    | Except.ok _ => true
    | Except.error _ => false
  else false

/-- C3: for every input line whose stripped form is empty or case-insensitively
one of "exit", "quit", "bye", both dispatch loops halt at once, with no
Runner.run invocation and current_agent untouched, whatever the agent
behaviour would have been. -/
theorem exit_handling_no_agent_invocation
    (run runInit : String → String → Except String DispatchResult)
    (cur raw : String)
    (h : pyStrip raw = "" ∨ pyLower (pyStrip raw) = "exit" ∨
      pyLower (pyStrip raw) = "quit" ∨ pyLower (pyStrip raw) = "bye") :
    loopStep02 run cur raw = ⟨cur, false, none, true⟩ ∧
    loopStepInit runInit cur raw = ⟨cur, false, none, true⟩ := by
  have hreq : exitRequested raw = true := by
    unfold exitRequested
    rcases h with h | h | h | h
    · rw [h]
      decide
    all_goals
      rw [h, Bool.or_eq_true]
      right
      decide
  constructor <;> simp [loopStep02, loopStepInit, hreq]

/-- Witness for C3: the line " EXIT " (whitespace, uppercase) halts both
loops without invoking the failing agent oracle. -/
theorem exit_handling_no_agent_invocation_witness :
    loopStep02 (fun _ _ => Except.error "model failure") "ConflictChecker"
      " EXIT " = ⟨"ConflictChecker", false, none, true⟩ ∧
    loopStepInit (fun _ _ => Except.error "model failure") "ReviewerAgent"
      " EXIT " = ⟨"ReviewerAgent", false, none, true⟩ :=
  ⟨(exit_handling_no_agent_invocation (fun _ _ => Except.error "model failure")
      (fun _ _ => Except.error "model failure") "ConflictChecker" " EXIT "
      (Or.inr (Or.inl (by decide)))).1,
   (exit_handling_no_agent_invocation (fun _ _ => Except.error "model failure")
      (fun _ _ => Except.error "model failure") "ReviewerAgent" " EXIT "
      (Or.inr (Or.inl (by decide)))).2⟩

/-- C7: if the agent invocation inside a dispatch step raises, the exception
surfaces to the caller and current_agent still holds its pre-step value, in
both loops. -/
theorem step_failure_preserves_current_agent
    (run : String → String → Except String DispatchResult)
    (cur raw e : String)
    (hexit : exitRequested raw = false)
    (hrun : run cur (pyStrip raw) = Except.error e) :
    (loopStep02 run cur raw).currentAgent = cur ∧
    (loopStep02 run cur raw).error = some e ∧
    (loopStep02 run cur raw).ranAgent = true ∧
    (loopStepInit run cur raw).currentAgent = cur ∧
    (loopStepInit run cur raw).error = some e := by
  simp [loopStep02, loopStepInit, hexit, hrun]

/-- Witness for C7: a concrete failing oracle leaves current_agent at
PlannerAgent and surfaces the error. -/
theorem step_failure_preserves_current_agent_witness :
    (loopStep02 (fun _ _ => Except.error "tool failure") "PlannerAgent"
      "plan my weekend").currentAgent = "PlannerAgent" ∧
    (loopStep02 (fun _ _ => Except.error "tool failure") "PlannerAgent"
      "plan my weekend").error = some "tool failure" ∧
    (loopStep02 (fun _ _ => Except.error "tool failure") "PlannerAgent"
      "plan my weekend").ranAgent = true ∧
    (loopStepInit (fun _ _ => Except.error "tool failure") "PlannerAgent"
      "plan my weekend").currentAgent = "PlannerAgent" ∧
    (loopStepInit (fun _ _ => Except.error "tool failure") "PlannerAgent"
      "plan my weekend").error = some "tool failure" :=
  step_failure_preserves_current_agent (fun _ _ => Except.error "tool failure")
    "PlannerAgent" "plan my weekend" "tool failure" (by decide) rfl

/-- A dispatch result reaching CalendarAgent carrying only a tool-call record
and no MessageOutputItem. -/
def noMessageResult : DispatchResult :=
  ⟨[Item.toolCall "CalendarAgent" "create-event" "event data"], "CalendarAgent"⟩

/-- C2 as stated is false on personal-assitant/init.py: the loop reaches
CalendarAgent, the final invocation returns no MessageOutput at all (hence no
completion signal of any form), and the loop still halts instead of awaiting
further input. -/
theorem terminal_condition_as_stated_false :
    initCalendarHalts (fun _ _ => Except.ok noMessageResult) "CalendarAgent"
      = true ∧
    noMessageResult.newItems.any isMessageOutput = false := by
  constructor <;> rfl

/-- C2 amended: in 02-agent-mcp-calendar.py the loop halts after a successful
step exactly when the step's last agent is CalendarAgent and the result holds
at least one MessageOutputItem — the text of the message is never inspected;
in personal-assitant/init.py, once current_agent is CalendarAgent the loop
runs one final invocation and halts unconditionally, and it never halts there
for any other agent. -/
theorem terminal_condition_loops :
    (∀ (run : String → String → Except String DispatchResult)
      (cur raw : String) (r : DispatchResult),
      exitRequested raw = false →
      run cur (pyStrip raw) = Except.ok r →
      ((loopStep02 run cur raw).halt = true ↔
        (r.lastAgent = "CalendarAgent" ∧ r.newItems.any isMessageOutput = true))) ∧
    (∀ (run : String → String → Except String DispatchResult)
      (r : DispatchResult),
      run "CalendarAgent" "Execute the approved plan" = Except.ok r →
      initCalendarHalts run "CalendarAgent" = true) ∧
    (∀ (run : String → String → Except String DispatchResult) (cur : String),
      cur ≠ "CalendarAgent" → initCalendarHalts run cur = false) := by
  refine ⟨?_, ?_, ?_⟩
  · intro run cur raw r hexit hrun
    simp [loopStep02, hexit, hrun]
  · intro run r hrun
    simp [initCalendarHalts, hrun]
  · intro run cur hcur
    simp [initCalendarHalts, hcur]

/-- Witness for the amended C2: a concrete step whose result reaches
CalendarAgent with a message halts the 02 loop, and a concrete final
invocation halts the init loop at CalendarAgent but not at ReviewerAgent. -/
theorem terminal_condition_loops_witness :
    ((loopStep02 (fun _ _ => Except.ok
        ⟨[Item.messageOutput "CalendarAgent" "All events created"],
          "CalendarAgent"⟩) "ReviewerAgent" "yes").halt = true ↔
      ((⟨[Item.messageOutput "CalendarAgent" "All events created"],
          "CalendarAgent"⟩ : DispatchResult).lastAgent = "CalendarAgent" ∧
        (⟨[Item.messageOutput "CalendarAgent" "All events created"],
          "CalendarAgent"⟩ : DispatchResult).newItems.any isMessageOutput
          = true)) ∧
    initCalendarHalts (fun _ _ => Except.ok noMessageResult) "CalendarAgent"
      = true ∧
    initCalendarHalts (fun _ _ => Except.ok noMessageResult) "ReviewerAgent"
      = false :=
  ⟨terminal_condition_loops.1 _ "ReviewerAgent" "yes" _ (by decide) rfl,
   terminal_condition_loops.2.1 _ noMessageResult rfl,
   terminal_condition_loops.2.2 _ "ReviewerAgent" (by decide)⟩

/-- Handoff assignments of 02-agent-mcp-calendar.py (lines 267-271), keyed by
agent name. -/
def handoffs02 : List (String × List String) :=
  [("ConflictChecker", ["NegotiatorAgent", "PlannerAgent"]),
   ("NegotiatorAgent", ["PlannerAgent"]),
   ("PlannerAgent", ["ReviewerAgent"]),
   ("ReviewerAgent", ["CalendarAgent", "PlannerAgent"]),
   ("CalendarAgent", [])]

/-- Handoff assignments of personal-assitant/init.py (lines 307-311), keyed by
agent name. -/
def handoffsInit : List (String × List String) :=
  [("ConflictOrchestrator", ["NegotiatorAgent", "PlanningOrchestrator"]),
   ("NegotiatorAgent", ["PlanningOrchestrator"]),
   ("PlanningOrchestrator", ["ReviewerAgent"]),
   ("ReviewerAgent", ["CalendarAgent", "PlanningOrchestrator"]),
   ("CalendarAgent", [])]

/-- The edge relation of the claim, with the checker and planner roles filled
by the concrete agent names of each script. -/
def claimedHandoffs (checker planner : String) : List (String × List String) :=
  [(checker, ["NegotiatorAgent", planner]),
   ("NegotiatorAgent", [planner]),
   (planner, ["ReviewerAgent"]),
   ("ReviewerAgent", ["CalendarAgent", planner]),
   ("CalendarAgent", [])]

/-- Whether the configuration allows a handoff from src to tgt. -/
def canHandoff (cfg : List (String × List String)) (src tgt : String) : Bool :=
  ((getA cfg src).getD []).contains tgt

/-- C4: in both scripts the configured handoff edges are exactly the claimed
relation (with ConflictChecker/PlannerAgent respectively
ConflictOrchestrator/PlanningOrchestrator in the checker and planner roles),
CalendarAgent's target set is assigned the empty list, and no handoff out of
CalendarAgent is possible to any agent whatsoever. -/
theorem handoff_edge_relation :
    handoffs02 = claimedHandoffs "ConflictChecker" "PlannerAgent" ∧
    handoffsInit = claimedHandoffs "ConflictOrchestrator" "PlanningOrchestrator" ∧
    getA handoffs02 "CalendarAgent" = some [] ∧
    getA handoffsInit "CalendarAgent" = some [] ∧
    (∀ t : String, canHandoff handoffs02 "CalendarAgent" t = false) ∧
    (∀ t : String, canHandoff handoffsInit "CalendarAgent" t = false) :=
  ⟨rfl, rfl, by decide, by decide, fun t => rfl, fun t => rfl⟩

/-- Modelled from the spec: the Parallel Fan-out Coordinator of section 4.4.
The reference scripts realize it as a call of asyncio.gather on one
Runner.run invocation per agent over the shared input (init.py lines 336-339
and 417-431, 03-parallel-multi-agent.py lines 63-66); the join itself is
library code outside src. Each branch is run on the same input, and the
result list is in branch order. -/
def fanOutResults (run : String → String → DispatchResult)
    (agents : List String) (input : String) : List DispatchResult :=
  agents.map fun a => run a input

/-- Modelled from the spec: the join of the fan-out batch. `completed` lists
the indices of the branches whose invocations have finished so far, in finish
order; the coordinator yields its result list only once every branch index
appears there, and yields nothing earlier. -/
def fanOutJoin (run : String → String → DispatchResult) (agents : List String)
    (input : String) (completed : List Nat) : Option (List DispatchResult) :=
  if (List.range agents.length).all (fun i => completed.contains i)
  then some (fanOutResults run agents input)
  else none

/-- C5: a fan-out batch over agents [A1..An] yields exactly n results, the
i-th being Ai's invocation on the shared input; it yields only once every
branch has completed (a batch with any branch still incomplete yields
nothing); and the yielded list is the same whatever order the branches
finished in. -/
theorem fan_out_join_spec
    (run : String → String → DispatchResult) (agents : List String)
    (input : String) (completed completed2 : List Nat)
    (hdone : ((List.range agents.length).all
      (fun i => completed.contains i)) = true)
    (hdone2 : ((List.range agents.length).all
      (fun i => completed2.contains i)) = true) :
    fanOutJoin run agents input completed
      = some (fanOutResults run agents input) ∧
    (fanOutResults run agents input).length = agents.length ∧
    (∀ i : Nat, (fanOutResults run agents input).get? i
      = (agents.get? i).map fun a => run a input) ∧
    (∀ pending : List Nat,
      ((List.range agents.length).all (fun i => pending.contains i)) = false →
      fanOutJoin run agents input pending = none) ∧
    fanOutJoin run agents input completed
      = fanOutJoin run agents input completed2 := by
  have key : ∀ c : List Nat, ((List.range agents.length).all
      (fun i => c.contains i)) = true →
      fanOutJoin run agents input c = some (fanOutResults run agents input) := by
    intro c hc
    unfold fanOutJoin
    rw [if_pos hc]
  refine ⟨key completed hdone, ?_, ?_, ?_, ?_⟩
  · simp [fanOutResults]
  · intro i
    simp [fanOutResults, List.get?_map]
  · intro pending hpending
    have hne : ¬ (((List.range agents.length).all
        (fun i => pending.contains i)) = true) := by
      rw [hpending]
      decide
    unfold fanOutJoin
    rw [if_neg hne]
  · rw [key completed hdone, key completed2 hdone2]

/-- Witness for C5 at the phase-1 batch of init.py: the two conflict checkers
run on the shared user input; with either finish order the join yields the
same two results in branch order, and with one branch incomplete it yields
nothing. -/
theorem fan_out_join_spec_witness :
    fanOutJoin
      (fun a input => ⟨[Item.messageOutput a input], a⟩)
      ["CalendarConflictChecker", "RoutineConflictChecker"] "plan a party"
      [1, 0]
      = some (fanOutResults
          (fun a input => ⟨[Item.messageOutput a input], a⟩)
          ["CalendarConflictChecker", "RoutineConflictChecker"] "plan a party") ∧
    (fanOutResults (fun a input => ⟨[Item.messageOutput a input], a⟩)
      ["CalendarConflictChecker", "RoutineConflictChecker"]
      "plan a party").length = 2 ∧
    (∀ i : Nat, (fanOutResults
        (fun a input => ⟨[Item.messageOutput a input], a⟩)
        ["CalendarConflictChecker", "RoutineConflictChecker"]
        "plan a party").get? i
      = ((["CalendarConflictChecker", "RoutineConflictChecker"] :
          List String).get? i).map
          fun a => (⟨[Item.messageOutput a "plan a party"], a⟩ : DispatchResult)) ∧
    (∀ pending : List Nat,
      ((List.range (["CalendarConflictChecker", "RoutineConflictChecker"] :
        List String).length).all (fun i => pending.contains i)) = false →
      fanOutJoin (fun a input => ⟨[Item.messageOutput a input], a⟩)
        ["CalendarConflictChecker", "RoutineConflictChecker"] "plan a party"
        pending = none) ∧
    fanOutJoin (fun a input => ⟨[Item.messageOutput a input], a⟩)
      ["CalendarConflictChecker", "RoutineConflictChecker"] "plan a party"
      [1, 0]
      = fanOutJoin (fun a input => ⟨[Item.messageOutput a input], a⟩)
        ["CalendarConflictChecker", "RoutineConflictChecker"] "plan a party"
        [0, 1] :=
  fan_out_join_spec (fun a input => ⟨[Item.messageOutput a input], a⟩)
    ["CalendarConflictChecker", "RoutineConflictChecker"] "plan a party"
    [1, 0] [0, 1] (by decide) (by decide)

/-- Substring occurrence on char lists: some index has the pattern as the
slice that follows. -/
def listContainsSub (s p : List Char) : Bool :=
  (List.range (s.length + 1)).any fun i => decide ((s.drop i).take p.length = p)

/-- Substring occurrence on strings. -/
def strContains (s pat : String) : Bool :=
  listContainsSub s.data pat.data

theorem strContains_of_parts (s p : String) (a b : List Char)
    (h : s.data = a ++ (p.data ++ b)) : strContains s p = true := by
  unfold strContains listContainsSub
  rw [List.any_eq_true]
  refine ⟨a.length, ?_, ?_⟩
  · rw [List.mem_range, h]
    simp [List.length_append]
    omega
  · rw [h, List.drop_left, List.take_left]
    simp

/-- Phase-1 merge of personal-assitant/init.py (lines 342-346): the two
conflict checkers' textual outputs concatenated under the fixed captions of
the f-string. -/
def combined_conflicts (calendarOut routineOut : String) : String :=
  "Calendar conflicts:\n" ++ calendarOut ++ "\n\n" ++
    "Routine conflicts:\n" ++ routineOut

/-- The input handed to ConflictOrchestrator right after the merge
(init.py line 353). -/
def conflictOrchestratorInput (userInput calendarOut routineOut : String) :
    String :=
  "User request: " ++ userInput ++ "\n\n" ++
    combined_conflicts calendarOut routineOut

/-- The merged prompt of 03-parallel-multi-agent.py (lines 71-76), handed to
the decision agent. -/
def combined_prompt (leaveRequest policyOutput calendarOutput : String) :
    String :=
  "Leave request: " ++ leaveRequest ++ "\n\n" ++
    "Policy check:\n" ++ policyOutput ++ "\n\n" ++
    "Calendar check:\n" ++ calendarOutput ++ "\n\n" ++
    "Please decide and explain if leave can be approved."

/-- The merge as the claim words it: each branch's textual output labeled by
the emitting agent's registered name, concatenated into one string. -/
def claimMergeByAgentName (branches : List (String × String)) : String :=
  String.join (branches.map fun b => b.1 ++ ":\n" ++ b.2 ++ "\n\n")

/-- C6 as stated is false on the code: the string handed to the next stage
after the phase-1 fan-out labels the branch outputs with the fixed captions
of the f-string, not with the emitting agents' names — the name
RoutineConflictChecker (init.py line 78) never occurs in it, while the merge
the claim describes would contain it, and the two strings differ. -/
theorem fan_out_merge_as_stated_false :
    strContains (conflictOrchestratorInput "plan a party" "calendar is clear"
      "gym conflict") "RoutineConflictChecker" = false ∧
    strContains (claimMergeByAgentName
      [("CalendarConflictChecker", "calendar is clear"),
       ("RoutineConflictChecker", "gym conflict")])
      "RoutineConflictChecker" = true ∧
    conflictOrchestratorInput "plan a party" "calendar is clear" "gym conflict"
      ≠ claimMergeByAgentName
        [("CalendarConflictChecker", "calendar is clear"),
         ("RoutineConflictChecker", "gym conflict")] :=
  ⟨by decide, by decide, by decide⟩

/-- C6 amended: after each fan-out batch the branches' textual outputs are
concatenated into one string, each under a fixed descriptive caption rather
than the agent's registered name, and that string is embedded, together with
the user request or an instruction preamble, in the single input handed to
the next sequential stage's agent. -/
theorem fan_out_merge_structure (u x y : String) :
    strContains (conflictOrchestratorInput u x y) x = true ∧
    strContains (conflictOrchestratorInput u x y) y = true ∧
    strContains (conflictOrchestratorInput u x y) "Calendar conflicts:\n"
      = true ∧
    strContains (conflictOrchestratorInput u x y) "Routine conflicts:\n"
      = true ∧
    conflictOrchestratorInput u x y =
      "User request: " ++ u ++ "\n\n" ++ ("Calendar conflicts:\n" ++ x ++
        "\n\n" ++ "Routine conflicts:\n" ++ y) ∧
    strContains (combined_prompt u x y) x = true ∧
    strContains (combined_prompt u x y) y = true := by
  refine ⟨?_, ?_, ?_, ?_, ?_, ?_, ?_⟩
  · exact strContains_of_parts _ _
      (("User request: ").data ++ u.data ++ ("\n\n").data ++
        ("Calendar conflicts:\n").data)
      (("\n\n").data ++ ("Routine conflicts:\n").data ++ y.data)
      (by simp [conflictOrchestratorInput, combined_conflicts,
        String.data_append, List.append_assoc])
  · exact strContains_of_parts _ _
      (("User request: ").data ++ u.data ++ ("\n\n").data ++
        ("Calendar conflicts:\n").data ++ x.data ++ ("\n\n").data ++
        ("Routine conflicts:\n").data)
      []
      (by simp [conflictOrchestratorInput, combined_conflicts,
        String.data_append, List.append_assoc])
  · exact strContains_of_parts _ _
      (("User request: ").data ++ u.data ++ ("\n\n").data)
      (x.data ++ ("\n\n").data ++ ("Routine conflicts:\n").data ++ y.data)
      (by simp [conflictOrchestratorInput, combined_conflicts,
        String.data_append, List.append_assoc])
  · exact strContains_of_parts _ _
      (("User request: ").data ++ u.data ++ ("\n\n").data ++
        ("Calendar conflicts:\n").data ++ x.data ++ ("\n\n").data)
      (y.data)
      (by simp [conflictOrchestratorInput, combined_conflicts,
        String.data_append, List.append_assoc])
  · apply String.ext
    simp [conflictOrchestratorInput, combined_conflicts, String.data_append,
      List.append_assoc]
  · exact strContains_of_parts _ _
      (("Leave request: ").data ++ u.data ++ ("\n\n").data ++
        ("Policy check:\n").data)
      (("\n\n").data ++ ("Calendar check:\n").data ++ y.data ++
        ("\n\n").data ++
        ("Please decide and explain if leave can be approved.").data)
      (by simp [combined_prompt, String.data_append, List.append_assoc])
  · exact strContains_of_parts _ _
      (("Leave request: ").data ++ u.data ++ ("\n\n").data ++
        ("Policy check:\n").data ++ x.data ++ ("\n\n").data ++
        ("Calendar check:\n").data)
      (("\n\n").data ++
        ("Please decide and explain if leave can be approved.").data)
      (by simp [combined_prompt, String.data_append, List.append_assoc])

/-- Registry error taxonomy of section 7 of the design document. -/
inductive RegError where
  | DuplicateAgent
  | UnknownTarget
  | NotFound
deriving DecidableEq, Repr

/-- Modelled from the spec: the Agent Registry of section 4.1. The reference
scripts never implement it — they construct agents and assign the handoffs
attribute without any validation (init.py lines 305-311, init_viz.py lines
66-69) — so the registry with its rejection contract exists only in the
design document. Agents are kept by name in registration order, edges as the
per-source handoff target sets. -/
structure Registry where
  agents : List String
  edges : List (String × List String)
deriving DecidableEq, Repr

/-- Modelled from the spec: register(agent_spec) must reject duplicate names
with DuplicateAgent. -/
def Registry.register (r : Registry) (n : String) : Except RegError Registry :=
  if n ∈ r.agents then Except.error RegError.DuplicateAgent
  else Except.ok ⟨r.agents ++ [n], r.edges⟩

/-- Modelled from the spec: set_handoffs(agent, targets) must reject with
UnknownTarget a handoff set referencing an unregistered agent. -/
def Registry.set_handoffs (r : Registry) (src : String) (ts : List String) :
    Except RegError Registry :=
  if ∀ t ∈ ts, t ∈ r.agents then Except.ok ⟨r.agents, setA r.edges src ts⟩
  else Except.error RegError.UnknownTarget

/-- Registries reachable by the two-phase build of the design document:
start empty, then any sequence of successful register and set_handoffs
calls. -/
inductive Built : Registry → Prop where
  | empty : Built ⟨[], []⟩
  | register (r r2 : Registry) (n : String) :
      Built r → Registry.register r n = Except.ok r2 → Built r2
  | assign (r r2 : Registry) (src : String) (ts : List String) :
      Built r → Registry.set_handoffs r src ts = Except.ok r2 → Built r2

/-- C8: registering an already-registered name fails with DuplicateAgent, a
handoff set referencing an unregistered agent fails with UnknownTarget, and
every registry reachable by successful builds has every handoff edge's
target registered. -/
theorem registry_validation_spec :
    (∀ (r : Registry) (n : String), n ∈ r.agents →
      Registry.register r n = Except.error RegError.DuplicateAgent) ∧
    (∀ (r : Registry) (src : String) (ts : List String) (t : String),
      t ∈ ts → t ∉ r.agents →
      Registry.set_handoffs r src ts = Except.error RegError.UnknownTarget) ∧
    (∀ r : Registry, Built r → ∀ (src : String) (ts : List String),
      getA r.edges src = some ts → ∀ t ∈ ts, t ∈ r.agents) := by
  refine ⟨?_, ?_, ?_⟩
  · intro r n h
    simp [Registry.register, h]
  · intro r src ts t ht hnot
    have : ¬ ∀ t2 ∈ ts, t2 ∈ r.agents := fun hall => hnot (hall t ht)
    simp [Registry.set_handoffs, this]
  · intro r hbuilt
    induction hbuilt with
    | empty =>
        intro src ts h
        simp [getA] at h
    | register r r2 n hb heq ih =>
        intro src ts h t ht
        unfold Registry.register at heq
        by_cases hmem : n ∈ r.agents
        · simp [hmem] at heq
        · rw [if_neg hmem] at heq
          cases heq
          exact List.mem_append_left _ (ih src ts h t ht)
    | assign r r2 src0 ts0 hb heq ih =>
        intro src ts h t ht
        unfold Registry.set_handoffs at heq
        by_cases hall : ∀ t2 ∈ ts0, t2 ∈ r.agents
        · rw [if_pos hall] at heq
          cases heq
          by_cases hsrc : src0 = src
          · subst hsrc
            rw [getA_setA_self] at h
            cases h
            exact hall t ht
          · rw [getA_setA_ne _ _ _ _ hsrc] at h
            exact ih src ts h t ht
        · simp [hall] at heq

/-- Witness for C8: a duplicate registration of PlannerAgent is rejected, a
handoff set naming the unregistered ReviewerAgent is rejected, and in the
registry built by registering ReviewerAgent and CalendarAgent and assigning
the edge ReviewerAgent to CalendarAgent, the target CalendarAgent is
registered. -/
theorem registry_validation_spec_witness :
    Registry.register ⟨["PlannerAgent"], []⟩ "PlannerAgent"
      = Except.error RegError.DuplicateAgent ∧
    Registry.set_handoffs ⟨["PlannerAgent"], []⟩ "PlannerAgent"
      ["ReviewerAgent"] = Except.error RegError.UnknownTarget ∧
    "CalendarAgent" ∈ (⟨["ReviewerAgent", "CalendarAgent"],
      [("ReviewerAgent", ["CalendarAgent"])]⟩ : Registry).agents :=
  ⟨registry_validation_spec.1 ⟨["PlannerAgent"], []⟩ "PlannerAgent" (by decide),
   registry_validation_spec.2.1 ⟨["PlannerAgent"], []⟩ "PlannerAgent"
     ["ReviewerAgent"] "ReviewerAgent" (by decide) (by decide),
   registry_validation_spec.2.2
     ⟨["ReviewerAgent", "CalendarAgent"], [("ReviewerAgent", ["CalendarAgent"])]⟩
     (Built.assign ⟨["ReviewerAgent", "CalendarAgent"], []⟩
       ⟨["ReviewerAgent", "CalendarAgent"], [("ReviewerAgent", ["CalendarAgent"])]⟩
       "ReviewerAgent" ["CalendarAgent"]
       (Built.register ⟨["ReviewerAgent"], []⟩
         ⟨["ReviewerAgent", "CalendarAgent"], []⟩ "CalendarAgent"
         (Built.register ⟨[], []⟩ ⟨["ReviewerAgent"], []⟩ "ReviewerAgent"
           Built.empty rfl)
         rfl)
       rfl)
     "ReviewerAgent" ["CalendarAgent"] (by decide) "CalendarAgent" (by decide)⟩
